import Mathlib

/-!
Verification of the typed attribute-mapping layer for calendar person entities
(`src/ics/attendee.py`): the raw property store, the single-valued and
multi-valued property descriptors (`PersonProperty`, `PersonMultiProperty`),
and the `Person` / `Organizer` / `Attendee` entities.

The raw property store (`instance.extra`, a Python `Dict[str, List[str]]`) is
embedded as an insertion-ordered association list with Python-dict semantics:
assignment replaces the value of an existing key in place and appends a fresh
key at the end; `pop` removes the key's entry.  Python exceptions are embedded
with `Except`.
-/

set_option autoImplicit false

/-- The raw property store: `extra: Dict[str, List[str]]` from `PersonAttrs`,
an insertion-ordered mapping from property name to a sequence of raw strings. -/
abbrev Store := List (String × List String)

namespace Store

/-- Python `name in d` / `d[name]` combined: the value sequence stored under a
key, if present. -/
def lookup : Store → String → Option (List String)
  | [], _ => none
  | (k, v) :: rest, key => if k = key then some v else lookup rest key

/-- Python `d[key] = val`: replace the value of an existing key in place,
otherwise append the new entry at the end (insertion order). -/
def setEntry : Store → String → List String → Store
  | [], key, val => [(key, val)]
  | (k, v) :: rest, key, val =>
    if k = key then (k, val) :: rest else (k, v) :: setEntry rest key val

/-- Python `d.pop(key, None)`: remove the key's entry if present, no-op if
absent (the default argument suppresses the `KeyError`). -/
def pop : Store → String → Store
  | [], _ => []
  | (k, v) :: rest, key => if k = key then rest else (k, v) :: pop rest key

end Store

/-- The exceptions this layer can raise while reading a property.
`cardinalityError` embeds the `ValueError("Expected at most one value for
property {name}, got {value}!")` raised by `PersonProperty.__get__` (the
spec's `CardinalityError`); `valueFormatError` embeds the failure a
conversion capability raises when a raw string is not a valid encoding
(the spec's `ValueFormatError`). -/
inductive PropError where
  | cardinalityError (name : String) (values : List String)
  | valueFormatError (raw : String)
deriving DecidableEq

/-- A conversion capability (`ics.valuetype.base.ValueConverter`): `parse` a
raw string into a typed value (may fail with a `ValueFormatError`) and
`serialize` a typed value back to its string encoding (total). -/
structure ValueConverter (T : Type) where
  parse : String → Except PropError T
  serialize : T → String

/-- Modelled from the spec: `RawTextConverter` lives in `ics.valuetype.text`,
which is not under src/.  Per §6 it is the conversion capability for plain
text, satisfying the round-trip law `parse(serialize(v)) == v`; the §8
scenario shows `serialize` of a plain token like `"ACCEPTED"` is the token
itself, so it is embedded as the identity encoding. -/
def RawTextConverter : ValueConverter String :=
  { parse := fun s => .ok s, serialize := fun s => s }

/-- Modelled from the spec: `URIConverter` lives in `ics.valuetype.generic`,
which is not under src/.  Per §6 it is the conversion capability for
URI-references, satisfying the round-trip law; the §8 scenario shows raw
values like `"mailto:x@example.com"` stored verbatim, so it is embedded as
the identity encoding on URI strings. -/
def URIConverter : ValueConverter String :=
  { parse := fun s => .ok s, serialize := fun s => s }

/-- Modelled from the spec: `BooleanConverter` lives in
`ics.valuetype.generic`, which is not under src/.  Per §6 it converts the
boolean value domain, failing with a `ValueFormatError` on a raw string that
is not a valid boolean encoding, and satisfies the round-trip law. -/
def BooleanConverter : ValueConverter Bool :=
  { parse := fun s =>
      if s = "TRUE" then .ok true
      else if s = "FALSE" then .ok false
      else .error (.valueFormatError s),
    serialize := fun b => if b then "TRUE" else "FALSE" }

/-- `[self.converter.parse(v) for v in value]`: parse every raw value in
order, propagating the first conversion failure as the raised exception. -/
def parseAll {T : Type} (c : ValueConverter T) : List String → Except PropError (List T)
  | [] => .ok []
  | v :: rest =>
    match c.parse v with
    | .error e => .error e
    | .ok t =>
      match parseAll c rest with
      | .error e => .error e
      | .ok ts => .ok (t :: ts)

/-- The single-valued descriptor `PersonProperty` (attendee.py lines 13-36):
a frozen record of property name, converter and default.  The Python
`default: Any = None` field is embedded as `Option T`: `none` is Python
`None`, `some d` a typed default such as `"NEEDS-ACTION"`. -/
structure PersonProperty (T : Type) where
  name : String
  converter : ValueConverter T
  default : Option T

/-- The multi-valued descriptor `PersonMultiProperty` (attendee.py lines
39-54); its `default: Any = None` is embedded as `Option (List T)`. -/
structure PersonMultiProperty (T : Type) where
  name : String
  converter : ValueConverter T
  default : Option (List T)

namespace PersonProperty

/-- `PersonProperty.__get__`: absent key or empty sequence returns the
default; a one-element sequence is parsed; two or more raw values raise the
cardinality `ValueError`.  The three length tests of the source are the
three list shapes of the match. -/
def Get {T : Type} (p : PersonProperty T) (extra : Store) : Except PropError (Option T) :=
  match Store.lookup extra p.name with
  | none => .ok p.default
  | some [] => .ok p.default
  | some [v] => (p.converter.parse v).map some
  | some value => .error (.cardinalityError p.name value)

/-- `PersonProperty.__set__`: `instance.extra[self.name] = [serialize(value)]`. -/
def Set {T : Type} (p : PersonProperty T) (extra : Store) (value : T) : Store :=
  Store.setEntry extra p.name [p.converter.serialize value]

/-- `PersonProperty.__delete__`: `instance.extra.pop(self.name, None)`. -/
def Delete {T : Type} (p : PersonProperty T) (extra : Store) : Store :=
  Store.pop extra p.name

end PersonProperty

namespace PersonMultiProperty

/-- `PersonMultiProperty.__get__`: absent key returns the default (even when
that default is `None`); a present key, empty or not, is parsed element by
element into a sequence. -/
def Get {T : Type} (p : PersonMultiProperty T) (extra : Store) :
    Except PropError (Option (List T)) :=
  match Store.lookup extra p.name with
  | none => .ok p.default
  | some value => (parseAll p.converter value).map some

/-- `PersonMultiProperty.__set__`:
`instance.extra[self.name] = [serialize(v) for v in value]`. -/
def Set {T : Type} (p : PersonMultiProperty T) (extra : Store) (value : List T) : Store :=
  Store.setEntry extra p.name (value.map p.converter.serialize)

/-- `PersonMultiProperty.__delete__`: `instance.extra.pop(self.name, None)`. -/
def Delete {T : Type} (p : PersonMultiProperty T) (extra : Store) : Store :=
  Store.pop extra p.name

end PersonMultiProperty

/-- A Python value bound by `setattr` for a keyword argument that does not
name a declared descriptor: it lands in the instance `__dict__` unchanged. -/
inductive AttVal where
  | str (s : String)
  | bool (b : Bool)
  | strList (l : List String)
deriving DecidableEq

/-- A `Person` instance: the `email` and `extra` fields of `PersonAttrs`
together with the plain instance attributes created by `setattr` for names
that match no descriptor. -/
structure Person where
  email : String
  extra : Store
  plain : List (String × AttVal)
deriving DecidableEq

namespace PersonProperty

/-- `__set__` seen at the instance level: only the `extra` mapping changes. -/
def setOn {T : Type} (p : PersonProperty T) (person : Person) (v : T) : Person :=
  { person with extra := p.Set person.extra v }

/-- `__delete__` seen at the instance level: only the `extra` mapping changes. -/
def deleteOn {T : Type} (p : PersonProperty T) (person : Person) : Person :=
  { person with extra := p.Delete person.extra }

end PersonProperty

namespace PersonMultiProperty

/-- `__set__` seen at the instance level: only the `extra` mapping changes. -/
def setOn {T : Type} (p : PersonMultiProperty T) (person : Person) (vs : List T) : Person :=
  { person with extra := p.Set person.extra vs }

/-- `__delete__` seen at the instance level: only the `extra` mapping changes. -/
def deleteOn {T : Type} (p : PersonMultiProperty T) (person : Person) : Person :=
  { person with extra := p.Delete person.extra }

end PersonMultiProperty

/-- Whether an `Except` result embeds a raised Python exception. -/
def isFailure {E A : Type} : Except E A → Bool
  | .error _ => true
  | .ok _ => false

/-- One invocation of a single-valued descriptor: attribute read, attribute
assignment, or attribute deletion. -/
inductive AccessorOp (T : Type) where
  | get
  | set (v : T)
  | delete

/-- One invocation of a multi-valued descriptor. -/
inductive MultiAccessorOp (T : Type) where
  | get
  | set (vs : List T)
  | delete

/-- A single-valued descriptor invocation with explicit state passing: the
pair is (result or raised exception, raw store after the call).  `__get__`
contains no mutating statement, so its post-store is the pre-store;
`__set__`/`__delete__` return no value (`ok none`). -/
def PersonProperty.run {T : Type} (p : PersonProperty T) (op : AccessorOp T) (s : Store) :
    Except PropError (Option T) × Store :=
  match op with
  | .get => (p.Get s, s)
  | .set v => (.ok none, p.Set s v)
  | .delete => (.ok none, p.Delete s)

/-- A multi-valued descriptor invocation with explicit state passing. -/
def PersonMultiProperty.run {T : Type} (p : PersonMultiProperty T) (op : MultiAccessorOp T)
    (s : Store) : Except PropError (Option (List T)) × Store :=
  match op with
  | .get => (p.Get s, s)
  | .set vs => (.ok none, p.Set s vs)
  | .delete => (.ok none, p.Delete s)

/-- The `extra` argument of `Person.__init__`: Python `None`, a genuine
mapping-of-sequences, or any other Python value (embedded by its repr). -/
inductive ExtraArg where
  | none
  | dict (d : Store)
  | nonDict (repr : String)
deriving DecidableEq

/-- The `TypeError` raised when the `extra` argument is rejected. -/
inductive InitError where
  | typeError (param : String) (got : String)
deriving DecidableEq

/-- Modelled from the spec: `check_is_instance` lives in `ics.utils`, which is
not under src/.  Per §4.3 and §7 a supplied raw store argument must be a
genuine mapping-of-sequences shape; anything else is rejected with a
`TypeError`-class failure.  The source calls it as
`check_is_instance("extra", extra, dict)`. -/
def check_is_instance (param : String) (arg : ExtraArg) : Except InitError Store :=
  match arg with
  | .none => .ok []
  | .dict d => .ok d
  | .nonDict r => .error (.typeError param r)

/-- `Person.__init__(self, email, extra=None, **kwargs)`: a missing `extra`
starts from an empty store; a supplied one is validated before anything else;
then each keyword argument is applied by `setattr`, whose descriptor dispatch
is the variant-specific `applyK`. -/
def Person.init {K : Type} (applyK : Person → K → Person) (email : String)
    (extra : ExtraArg) (kwargs : List K) : Except InitError Person :=
  match extra with
  | .none => .ok (kwargs.foldl applyK { email := email, extra := [], plain := [] })
  | arg =>
    match check_is_instance "extra" arg with
    | .error e => .error e
    | .ok s => .ok (kwargs.foldl applyK { email := email, extra := s, plain := [] })

namespace Person

/-- `sent_by = PersonProperty("SENT-BY", URIConverter)` (attendee.py:84). -/
def sent_by : PersonProperty String := ⟨"SENT-BY", URIConverter, none⟩

/-- `common_name = PersonProperty[str]("CN")` (attendee.py:85). -/
def common_name : PersonProperty String := ⟨"CN", RawTextConverter, none⟩

/-- `directory = PersonProperty("DIR", URIConverter)` (attendee.py:86). -/
def directory : PersonProperty String := ⟨"DIR", URIConverter, none⟩

end Person

namespace Attendee

/-- `user_type = PersonProperty[str]("CUTYPE", default="INDIVIDUAL")` (attendee.py:133). -/
def user_type : PersonProperty String := ⟨"CUTYPE", RawTextConverter, some "INDIVIDUAL"⟩

/-- `member = PersonMultiProperty("MEMBER", converter=URIConverter)` (attendee.py:134). -/
def member : PersonMultiProperty String := ⟨"MEMBER", URIConverter, none⟩

/-- `role = PersonProperty[str]("ROLE", default="REQ-PARTICIPANT")` (attendee.py:135). -/
def role : PersonProperty String := ⟨"ROLE", RawTextConverter, some "REQ-PARTICIPANT"⟩

/-- `status = PersonProperty[str]("PARTSTAT", default="NEEDS-ACTION")` (attendee.py:136). -/
def status : PersonProperty String := ⟨"PARTSTAT", RawTextConverter, some "NEEDS-ACTION"⟩

/-- `rsvp = PersonProperty("RSVP", converter=BooleanConverter, default=False)` (attendee.py:137). -/
def rsvp : PersonProperty Bool := ⟨"RSVP", BooleanConverter, some false⟩

/-- `delegated_to = PersonMultiProperty("DELEGATED-TO", converter=URIConverter)` (attendee.py:138). -/
def delegated_to : PersonMultiProperty String := ⟨"DELEGATED-TO", URIConverter, none⟩

/-- `delegated_from = PersonMultiProperty("DELEGATED-FROM", converter=URIConverter)` (attendee.py:139). -/
def delegated_from : PersonMultiProperty String := ⟨"DELEGATED-FROM", URIConverter, none⟩

end Attendee

/-- The attribute names for which an `Attendee` class declares a descriptor
(its own and the inherited `Person` ones): `setattr` with any of these names
dispatches to the descriptor's `__set__`; any other name lands as a plain
instance attribute. -/
def attendeeAccessorNames : List String :=
  ["sent_by", "common_name", "directory", "user_type", "member",
   "role", "status", "rsvp", "delegated_to", "delegated_from"]

/-- One keyword argument of `Attendee.__init__`, dispatched the way Python's
`setattr` dispatches it: a constructor per declared descriptor (with the
value of the descriptor's type), and `other` for a keyword whose name matches
no declared descriptor. -/
inductive AttendeeKwarg where
  | sent_by (v : String)
  | common_name (v : String)
  | directory (v : String)
  | user_type (v : String)
  | member (v : List String)
  | role (v : String)
  | status (v : String)
  | rsvp (v : Bool)
  | delegated_to (v : List String)
  | delegated_from (v : List String)
  | other (name : String) (v : AttVal)

/-- `setattr(self, key, val)` on an `Attendee`: a key naming a declared
descriptor goes through that descriptor's `__set__`; an unknown key is bound
as a plain instance attribute in the instance `__dict__`. -/
def Attendee.applyKwarg (person : Person) : AttendeeKwarg → Person
  | .sent_by v => Person.sent_by.setOn person v
  | .common_name v => Person.common_name.setOn person v
  | .directory v => Person.directory.setOn person v
  | .user_type v => Attendee.user_type.setOn person v
  | .member v => Attendee.member.setOn person v
  | .role v => Attendee.role.setOn person v
  | .status v => Attendee.status.setOn person v
  | .rsvp v => Attendee.rsvp.setOn person v
  | .delegated_to v => Attendee.delegated_to.setOn person v
  | .delegated_from v => Attendee.delegated_from.setOn person v
  | .other name v => { person with plain := person.plain ++ [(name, v)] }

/-- `Attendee(email, extra, **kwargs)`: `Person.__init__` with the
`Attendee` descriptor dispatch. -/
def Attendee.init (email : String) (extra : ExtraArg) (kwargs : List AttendeeKwarg) :
    Except InitError Person :=
  Person.init Attendee.applyKwarg email extra kwargs

/-! ## Store lemmas -/

theorem Store.lookup_setEntry_self (s : Store) (k : String) (v : List String) :
    Store.lookup (Store.setEntry s k v) k = some v := by
  induction s with
  | nil => simp [Store.setEntry, Store.lookup]
  | cons hd tl ih =>
    obtain ⟨k', v'⟩ := hd
    by_cases h : k' = k
    · simp [Store.setEntry, Store.lookup, h]
    · simp [Store.setEntry, Store.lookup, h, ih]

theorem Store.lookup_setEntry_ne (s : Store) (k m : String) (v : List String)
    (h : m ≠ k) : Store.lookup (Store.setEntry s k v) m = Store.lookup s m := by
  induction s with
  | nil => simp [Store.setEntry, Store.lookup, Ne.symm h]
  | cons hd tl ih =>
    obtain ⟨k', v'⟩ := hd
    by_cases hk : k' = k
    · subst hk
      simp [Store.setEntry, Store.lookup, Ne.symm h]
    · by_cases hm : k' = m
      · simp [Store.setEntry, Store.lookup, hk, hm, h]
      · simp [Store.setEntry, Store.lookup, hk, hm, ih]

theorem Store.lookup_pop_ne (s : Store) (k m : String) (h : m ≠ k) :
    Store.lookup (Store.pop s k) m = Store.lookup s m := by
  induction s with
  | nil => simp [Store.pop]
  | cons hd tl ih =>
    obtain ⟨k', v'⟩ := hd
    by_cases hk : k' = k
    · subst hk
      simp [Store.pop, Store.lookup, Ne.symm h]
    · by_cases hm : k' = m
      · simp [Store.pop, Store.lookup, hk, hm, h]
      · simp [Store.pop, Store.lookup, hk, hm, ih]

theorem parseAll_map_serialize {T : Type} (c : ValueConverter T)
    (h : ∀ x, c.parse (c.serialize x) = .ok x) (vs : List T) :
    parseAll c (vs.map c.serialize) = .ok vs := by
  induction vs with
  | nil => simp [parseAll]
  | cons a rest ih => simp [parseAll, h, ih]

/-! ## Claim theorems -/

/-- Claim C1: for every single-valued accessor (name `N`, converter `C`,
default `D`) and every raw store, `get` returns `D` when `N` is absent or its
value sequence is empty, returns `C.parse(value[0])` when the sequence has
length 1, and raises the cardinality error reporting the offending values
when the sequence has length 2 or more. -/
theorem single_get_cases {T : Type} (p : PersonProperty T) (extra : Store) :
    (Store.lookup extra p.name = none → p.Get extra = .ok p.default)
  ∧ (Store.lookup extra p.name = some [] → p.Get extra = .ok p.default)
  ∧ (∀ v, Store.lookup extra p.name = some [v] →
      p.Get extra = (p.converter.parse v).map some)
  ∧ (∀ vs, Store.lookup extra p.name = some vs → 2 ≤ vs.length →
      p.Get extra = .error (PropError.cardinalityError p.name vs)) := by
  refine ⟨?_, ?_, ?_, ?_⟩
  · intro h; simp [PersonProperty.Get, h]
  · intro h; simp [PersonProperty.Get, h]
  · intro v h; simp [PersonProperty.Get, h]
  · intro vs h hlen
    match vs, h with
    | [], h => simp at hlen
    | [a], h => simp at hlen
    | a :: b :: rest, h => simp [PersonProperty.Get, h]

/-- Witness for C1: the four cases of `single_get_cases` at the `status`
accessor (`PARTSTAT`, default `"NEEDS-ACTION"`) on concrete stores. -/
theorem single_get_cases_witness :
    Attendee.status.Get [] = .ok (some "NEEDS-ACTION")
  ∧ Attendee.status.Get [("PARTSTAT", ([] : List String))] = .ok (some "NEEDS-ACTION")
  ∧ Attendee.status.Get [("PARTSTAT", ["ACCEPTED"])] = .ok (some "ACCEPTED")
  ∧ Attendee.status.Get [("PARTSTAT", ["A", "B"])]
      = .error (PropError.cardinalityError "PARTSTAT" ["A", "B"]) := by
  refine ⟨?_, ?_, ?_, ?_⟩
  · exact (single_get_cases Attendee.status []).1 rfl
  · exact (single_get_cases Attendee.status [("PARTSTAT", [])]).2.1 (by decide)
  · exact (single_get_cases Attendee.status [("PARTSTAT", ["ACCEPTED"])]).2.2.1
      "ACCEPTED" (by decide)
  · exact (single_get_cases Attendee.status [("PARTSTAT", ["A", "B"])]).2.2.2
      ["A", "B"] (by decide) (by decide)

/-- Claim C2: for every multi-valued accessor, `get` returns the configured
default exactly when the property name is absent; a present name with an
empty sequence yields an empty sequence, not the default (asymmetric with the
single-valued accessor, whose present-but-empty case yields the default). -/
theorem multi_get_absent_vs_empty {T : Type} (q : PersonMultiProperty T) (extra : Store) :
    (Store.lookup extra q.name = none → q.Get extra = .ok q.default)
  ∧ (Store.lookup extra q.name = some [] →
      q.Get extra = .ok (some [])
    ∧ (q.default = none → q.Get extra ≠ .ok q.default)) := by
  constructor
  · intro h; simp [PersonMultiProperty.Get, h]
  · intro h
    have hg : q.Get extra = .ok (some []) := by
      simp [PersonMultiProperty.Get, h, parseAll, Except.map]
    refine ⟨hg, ?_⟩
    intro hd
    rw [hg, hd]
    simp

/-- Witness for C2: `member` (`MEMBER`, default `None`) on an absent key and
on a present key with an empty sequence. -/
theorem multi_get_absent_vs_empty_witness :
    Attendee.member.Get [] = .ok none
  ∧ Attendee.member.Get [("MEMBER", ([] : List String))] = .ok (some [])
  ∧ Attendee.member.Get [("MEMBER", ([] : List String))] ≠ .ok none := by
  refine ⟨?_, ?_, ?_⟩
  · exact (multi_get_absent_vs_empty Attendee.member []).1 rfl
  · exact ((multi_get_absent_vs_empty Attendee.member [("MEMBER", [])]).2 (by decide)).1
  · exact ((multi_get_absent_vs_empty Attendee.member [("MEMBER", [])]).2 (by decide)).2 rfl

/-- Claim C3: for every accessor (single- or multi-valued) whose converter
satisfies the round-trip law `parse(serialize(v)) = v`, `set(v)` followed by
`get()` on the same raw store returns `v`. -/
theorem set_then_get_roundtrip {T : Type} (p : PersonProperty T) (q : PersonMultiProperty T)
    (extra : Store) (v : T) (vs : List T)
    (h1 : ∀ x, p.converter.parse (p.converter.serialize x) = .ok x)
    (h2 : ∀ x, q.converter.parse (q.converter.serialize x) = .ok x) :
    p.Get (p.Set extra v) = .ok (some v)
  ∧ q.Get (q.Set extra vs) = .ok (some vs) := by
  constructor
  · simp [PersonProperty.Get, PersonProperty.Set, Store.lookup_setEntry_self, h1,
      Except.map]
  · simp [PersonMultiProperty.Get, PersonMultiProperty.Set, Store.lookup_setEntry_self,
      parseAll_map_serialize q.converter h2 vs, Except.map]

/-- Witness for C3: `status` round-trips `"ACCEPTED"` and `member`
round-trips a two-URI list; both converters satisfy the round-trip law
definitionally. -/
theorem set_then_get_roundtrip_witness :
    Attendee.status.Get (Attendee.status.Set [] "ACCEPTED") = .ok (some "ACCEPTED")
  ∧ Attendee.member.Get
      (Attendee.member.Set [] ["mailto:x@example.com", "mailto:y@example.com"])
      = .ok (some ["mailto:x@example.com", "mailto:y@example.com"]) := by
  exact set_then_get_roundtrip Attendee.status Attendee.member []
    "ACCEPTED" ["mailto:x@example.com", "mailto:y@example.com"]
    (fun x => rfl) (fun x => rfl)

/-- Claim C4: constructing any Person variant (any descriptor dispatch
`applyK`) with a supplied raw store argument rejects an argument that is not
of the mapping-of-sequences shape with the `TypeError`-class failure, before
any keyword argument is applied, and accepts a genuine mapping-of-sequences. -/
theorem extra_argument_validated {K : Type} (applyK : Person → K → Person)
    (email r : String) (d : Store) (kwargs : List K) :
    Person.init applyK email (ExtraArg.nonDict r) kwargs
      = .error (InitError.typeError "extra" r)
  ∧ isFailure (Person.init applyK email (ExtraArg.dict d) kwargs) = false := by
  exact ⟨rfl, rfl⟩

/-- Claim C5: for every multi-valued accessor whose converter satisfies the
round-trip law, `set [a, b, c]` writes the serialized values into the raw
store in the given order, and a subsequent `get` returns `[a, b, c]` in that
order — duplicates (`a = b` is allowed, nothing forbids it) are preserved and
no sorting or deduplication occurs. -/
theorem multi_set_preserves_order_and_duplicates {T : Type} (q : PersonMultiProperty T)
    (extra : Store) (a b c : T)
    (h : ∀ x, q.converter.parse (q.converter.serialize x) = .ok x) :
    Store.lookup (q.Set extra [a, b, c]) q.name
      = some [q.converter.serialize a, q.converter.serialize b, q.converter.serialize c]
  ∧ q.Get (q.Set extra [a, b, c]) = .ok (some [a, b, c]) := by
  constructor
  · simp [PersonMultiProperty.Set, Store.lookup_setEntry_self]
  · simp [PersonMultiProperty.Get, PersonMultiProperty.Set, Store.lookup_setEntry_self,
      parseAll, h, Except.map]

/-- Witness for C5: `delegated_to` with the duplicate-containing list
`["mailto:x@example.com", "mailto:x@example.com", "mailto:y@example.com"]`
(here `a = b`), preserved verbatim in the raw store and on read-back. -/
theorem multi_set_preserves_order_and_duplicates_witness :
    Store.lookup
        (Attendee.delegated_to.Set []
          ["mailto:x@example.com", "mailto:x@example.com", "mailto:y@example.com"])
        "DELEGATED-TO"
      = some ["mailto:x@example.com", "mailto:x@example.com", "mailto:y@example.com"]
  ∧ Attendee.delegated_to.Get
        (Attendee.delegated_to.Set []
          ["mailto:x@example.com", "mailto:x@example.com", "mailto:y@example.com"])
      = .ok (some ["mailto:x@example.com", "mailto:x@example.com", "mailto:y@example.com"]) := by
  exact multi_set_preserves_order_and_duplicates Attendee.delegated_to []
    "mailto:x@example.com" "mailto:x@example.com" "mailto:y@example.com" (fun x => rfl)

/-- Claim C6: an `Attendee("a@example.com")` with no extra raw store starts
from the empty store; `status` reads as `"NEEDS-ACTION"` and `rsvp` as
`false`; setting `status = "ACCEPTED"` makes the raw store exactly
`{"PARTSTAT": ["ACCEPTED"]}`; deleting `status` makes it read
`"NEEDS-ACTION"` again. -/
theorem attendee_status_scenario :
    Attendee.init "a@example.com" ExtraArg.none []
      = .ok { email := "a@example.com", extra := [], plain := [] }
  ∧ Attendee.status.Get [] = .ok (some "NEEDS-ACTION")
  ∧ Attendee.rsvp.Get [] = .ok (some false)
  ∧ Attendee.status.Set [] "ACCEPTED" = [("PARTSTAT", ["ACCEPTED"])]
  ∧ Attendee.status.Delete [("PARTSTAT", ["ACCEPTED"])] = []
  ∧ Attendee.status.Get (Attendee.status.Delete [("PARTSTAT", ["ACCEPTED"])])
      = .ok (some "NEEDS-ACTION") := by
  exact ⟨rfl, rfl, rfl, rfl, rfl, rfl⟩

/-- Claim C7: `set` and `delete` of any accessor bound to property name `N`
mutate at most the raw-store entry of `N`: every other entry and the `email`
field are unchanged (`get`, embedded as a pure function of the store, mutates
nothing).  Instantiating `M` with the name of another accessor gives the
non-interference of two accessors bound to distinct names. -/
theorem accessor_frame_effect {T : Type} (p : PersonProperty T) (q : PersonMultiProperty T)
    (person : Person) (v : T) (vs : List T) (M : String) :
    ((p.setOn person v).email = person.email
      ∧ (p.deleteOn person).email = person.email
      ∧ (q.setOn person vs).email = person.email
      ∧ (q.deleteOn person).email = person.email)
  ∧ (M ≠ p.name →
      Store.lookup (p.setOn person v).extra M = Store.lookup person.extra M
    ∧ Store.lookup (p.deleteOn person).extra M = Store.lookup person.extra M)
  ∧ (M ≠ q.name →
      Store.lookup (q.setOn person vs).extra M = Store.lookup person.extra M
    ∧ Store.lookup (q.deleteOn person).extra M = Store.lookup person.extra M) := by
  refine ⟨⟨rfl, rfl, rfl, rfl⟩, ?_, ?_⟩
  · intro h
    exact ⟨Store.lookup_setEntry_ne person.extra p.name M _ h,
           Store.lookup_pop_ne person.extra p.name M h⟩
  · intro h
    exact ⟨Store.lookup_setEntry_ne person.extra q.name M _ h,
           Store.lookup_pop_ne person.extra q.name M h⟩

/-- Witness for C7: on an instance holding a `ROLE` entry, setting `status`
(`PARTSTAT`) and deleting `member` (`MEMBER`) leave the `ROLE` entry and the
email untouched — two accessors bound to distinct names do not interfere. -/
theorem accessor_frame_effect_witness :
    (Attendee.status.setOn ⟨"e", [("ROLE", ["CHAIR"])], []⟩ "ACCEPTED").email = "e"
  ∧ Store.lookup (Attendee.status.setOn ⟨"e", [("ROLE", ["CHAIR"])], []⟩ "ACCEPTED").extra
      "ROLE" = some ["CHAIR"]
  ∧ Store.lookup (Attendee.member.deleteOn ⟨"e", [("ROLE", ["CHAIR"])], []⟩).extra
      "ROLE" = some ["CHAIR"] := by
  have h := accessor_frame_effect Attendee.status Attendee.member
    ⟨"e", [("ROLE", ["CHAIR"])], []⟩ "ACCEPTED" ["mailto:u@example.com"] "ROLE"
  refine ⟨h.1.1, ?_, ?_⟩
  · rw [(h.2.1 (by decide)).1]; decide
  · rw [(h.2.2 (by decide)).2]; decide

/-- Claim C8: every accessor operation either fully completes or fails with
the raw store exactly as before the call: a failing `get` (cardinality or
value-format error) leaves the store unmodified, and `set`/`delete` never
fail — each is a single map mutation, so no partial write is observable. -/
theorem accessor_no_partial_failure {T : Type} (p : PersonProperty T)
    (q : PersonMultiProperty T) (s : Store) (op : AccessorOp T) (mop : MultiAccessorOp T) :
    (isFailure (p.run op s).fst = true → (p.run op s).snd = s)
  ∧ (isFailure (q.run mop s).fst = true → (q.run mop s).snd = s)
  ∧ (p.run AccessorOp.get s).snd = s
  ∧ (q.run MultiAccessorOp.get s).snd = s
  ∧ (∀ w, isFailure (p.run (AccessorOp.set w) s).fst = false)
  ∧ isFailure (p.run AccessorOp.delete s).fst = false
  ∧ (∀ ws, isFailure (q.run (MultiAccessorOp.set ws) s).fst = false)
  ∧ isFailure (q.run MultiAccessorOp.delete s).fst = false := by
  refine ⟨?_, ?_, rfl, rfl, fun w => rfl, rfl, fun ws => rfl, rfl⟩
  · cases op <;> simp [PersonProperty.run, isFailure]
  · cases mop <;> simp [PersonMultiProperty.run, isFailure]

/-- Witness for C8: a `rsvp` read failing with the cardinality error and a
boolean multi-valued read failing with a value-format error both leave the
concrete store as it was; a `set` on the same store reports no failure. -/
theorem accessor_no_partial_failure_witness :
    (Attendee.rsvp.run AccessorOp.get [("RSVP", ["A", "B"]), ("X", ["JUNK"])]).snd
      = [("RSVP", ["A", "B"]), ("X", ["JUNK"])]
  ∧ (PersonMultiProperty.run ⟨"X", BooleanConverter, none⟩ MultiAccessorOp.get
        [("RSVP", ["A", "B"]), ("X", ["JUNK"])]).snd
      = [("RSVP", ["A", "B"]), ("X", ["JUNK"])]
  ∧ isFailure
      (Attendee.rsvp.run (AccessorOp.set true) [("RSVP", ["A", "B"]), ("X", ["JUNK"])]).fst
      = false
  ∧ isFailure
      (PersonMultiProperty.run ⟨"X", BooleanConverter, none⟩ (MultiAccessorOp.set [true])
        [("RSVP", ["A", "B"]), ("X", ["JUNK"])]).fst
      = false := by
  have h := accessor_no_partial_failure Attendee.rsvp
    (⟨"X", BooleanConverter, none⟩ : PersonMultiProperty Bool)
    [("RSVP", ["A", "B"]), ("X", ["JUNK"])] AccessorOp.get MultiAccessorOp.get
  exact ⟨h.1 (by decide), h.2.1 (by decide), h.2.2.2.2.1 true, h.2.2.2.2.2.2.1 [true]⟩

/-- Claim C9: on a freshly constructed Attendee (no raw store supplied) the
multi-valued accessors `member`, `delegated_to` and `delegated_from` all read
as `None` — their configured default is `None`, not an empty sequence, so a
multi-valued `get` does not always return a sequence. -/
theorem attendee_multi_defaults_are_none :
    Attendee.init "a@example.com" ExtraArg.none []
      = .ok { email := "a@example.com", extra := [], plain := [] }
  ∧ Attendee.member.default = none
  ∧ Attendee.delegated_to.default = none
  ∧ Attendee.delegated_from.default = none
  ∧ Attendee.member.Get [] = .ok none
  ∧ Attendee.delegated_to.Get [] = .ok none
  ∧ Attendee.delegated_from.Get [] = .ok none := by
  exact ⟨rfl, rfl, rfl, rfl, rfl, rfl, rfl⟩

/-- Claim C10: constructing an Attendee with a keyword argument whose name
matches no declared accessor does not fail: `setattr` binds the value as a
plain instance attribute, and the raw property store after construction
equals the supplied (or empty) store — the value never reaches the raw store. -/
theorem unknown_kwarg_becomes_plain_attribute (email nm : String) (v : AttVal) (s : Store)
    (_h : nm ∉ attendeeAccessorNames) :
    Attendee.init email (ExtraArg.dict s) [AttendeeKwarg.other nm v]
      = .ok { email := email, extra := s, plain := [(nm, v)] }
  ∧ Attendee.init email ExtraArg.none [AttendeeKwarg.other nm v]
      = .ok { email := email, extra := [], plain := [(nm, v)] } := by
  exact ⟨rfl, rfl⟩

/-- Witness for C10: the unknown keyword `nickname = "Bob"` on a store
holding a `ROLE` entry: construction succeeds, the store is unchanged and the
value lands among the plain instance attributes. -/
theorem unknown_kwarg_becomes_plain_attribute_witness :
    ("nickname" ∉ attendeeAccessorNames)
  ∧ Attendee.init "a@example.com" (ExtraArg.dict [("ROLE", ["CHAIR"])])
      [AttendeeKwarg.other "nickname" (AttVal.str "Bob")]
      = .ok { email := "a@example.com", extra := [("ROLE", ["CHAIR"])],
              plain := [("nickname", AttVal.str "Bob")] } := by
  refine ⟨by decide, ?_⟩
  exact (unknown_kwarg_becomes_plain_attribute "a@example.com" "nickname"
    (AttVal.str "Bob") [("ROLE", ["CHAIR"])] (by decide)).1
